import Mathlib

/-!
Shallow embedding of the booking/order pricing and status-transition
subsystem of the mania-backend hotel-management service, together with
theorems settling the specification claims about it.

Monetary amounts and timestamps (milliseconds) are modelled as exact
rationals (the JS source computes with IEEE doubles; the spec's formulas
are exact, so ℚ is the faithful idealisation).  Status enumerations are
kept as the literal strings the source uses.  Each request handler is a
pure function from its inputs (request body, the documents it loads, the
clock) to either an HTTP error or the state it persists.
-/

namespace Mania

/-- An HTTP error response: status code plus the message string the
controller puts in the JSON body. -/
structure HttpErr where
  code : Nat
  msg : String
deriving DecidableEq, Repr

/-! ## Booking model (src/models/Booking.js) -/

/-- One `additionalServices` line item of a booking (only the fields
`calculateTotal` reads). -/
structure ServiceLine where
  price : ℚ
  quantity : ℚ
deriving DecidableEq, Repr

/-- One embedded food order of a booking (only the field
`calculateTotal` reads). -/
structure FoodOrderLine where
  totalAmount : ℚ
deriving DecidableEq, Repr

/-- The `pricing` sub-record of a booking. -/
structure Pricing where
  roomRate : ℚ
  packagePrice : ℚ
  servicesTotal : ℚ
  foodTotal : ℚ
  taxAmount : ℚ
  discountAmount : ℚ
  totalAmount : ℚ
deriving DecidableEq, Repr

/-- The `payment` sub-record of a booking. -/
structure BookingPayment where
  status : String
  paidAmount : ℚ
  refundAmount : ℚ
deriving DecidableEq, Repr

/-- A persisted booking document (the fields the modelled operations
touch). Dates are epoch milliseconds. -/
structure Booking where
  checkInDateMs : ℚ
  checkOutDateMs : ℚ
  numberOfNights : ℚ
  additionalServices : List ServiceLine
  foodOrders : List FoodOrderLine
  pricing : Pricing
  payment : BookingPayment
  status : String
  actualCheckIn : Option ℚ
  actualCheckOut : Option ℚ
deriving DecidableEq, Repr

/-- `BookingSchema.methods.calculateTotal`: recomputes the pricing
sub-record in place from the line items and returns the mutated booking.
(`packagePrice || 0` and `discountAmount || 0` coincide with reading the
schema-defaulted numeric fields.) -/
def calculateTotal (b : Booking) : Booking :=
  let roomTotal := b.pricing.roomRate * b.numberOfNights
  let packageTotal := b.pricing.packagePrice
  let servicesTotal := (b.additionalServices.map (fun s => s.price * s.quantity)).sum
  let foodTotal := (b.foodOrders.map (fun o => o.totalAmount)).sum
  let subtotal := roomTotal + packageTotal + servicesTotal + foodTotal
  let taxAmount := subtotal * (18 / 100)
  let discountAmount := b.pricing.discountAmount
  { b with pricing :=
    { b.pricing with
      servicesTotal := servicesTotal
      foodTotal := foodTotal
      taxAmount := taxAmount
      totalAmount := subtotal + taxAmount - discountAmount } }

/-- The `BookingSchema.pre('save')` hook that recomputes
`numberOfNights = Math.ceil((checkOut - checkIn) / 86400000)`; modelling
`booking.save()`.  (The `updatedAt` stamp and the booking-number
generation hook touch no field any claim mentions.) -/
def bookingSave (b : Booking) : Booking :=
  { b with numberOfNights := ((⌈(b.checkOutDateMs - b.checkInDateMs) / 86400000⌉ : ℤ) : ℚ) }

/-! ## Room document (RoomSchema, src/models/Booking.js lines 294-418)

`RoomSchema` declares `roomNumber`, `price`, `isAvailable : Boolean`,
`maintenanceStatus`, ... — it declares no numeric `available` path.  The
booking controller nevertheless reads and writes `room.available`.  On a
mongoose document, reading a path absent from the schema yields JS
`undefined`, a `<` comparison involving `undefined` (coerced to NaN) is
`false`, and a save in (default) strict mode persists only schema paths,
so writes to `available` are dropped.  We embed exactly that fragment of
JS semantics. -/

/-- The value of a JS document-path read: a number, NaN, or `undefined`. -/
inductive JsVal where
  | num (q : ℚ)
  | nan
  | undef
deriving DecidableEq, Repr

/-- JS `<` against a number literal: the left operand is coerced with
ToNumber (`undefined ↦ NaN`) and every comparison involving NaN is false. -/
def JsVal.ltNum : JsVal → ℚ → Bool
  | JsVal.num q, r => decide (q < r)
  | JsVal.nan, _ => false
  | JsVal.undef, _ => false

/-- JS subtraction/addition of a number to a document-path value
(`room.available -= 1`, `room.available += 1`): `undefined` coerces to
NaN and NaN propagates. -/
def JsVal.addNum : JsVal → ℚ → JsVal
  | JsVal.num q, r => JsVal.num (q + r)
  | JsVal.nan, _ => JsVal.nan
  | JsVal.undef, _ => JsVal.nan

/-- A Room document as `RoomSchema` stores it (the fields the modelled
operations touch). -/
structure RoomDoc where
  roomNumber : String
  price : ℚ
  isAvailable : Bool
  maintenanceStatus : String
deriving DecidableEq, Repr

/-- Reading `room.available` on a loaded Room document: `available` is
not a schema path, so the read yields `undefined`. -/
def RoomDoc.availableRead (_r : RoomDoc) : JsVal := JsVal.undef

/-- `room.save()` after the controller assigned the non-schema path
`available`: strict-mode save persists only schema paths, so the stored
document is unchanged whatever was assigned. -/
def RoomDoc.saveAfterAvailableWrite (r : RoomDoc) (_v : JsVal) : RoomDoc := r

/-! ## Booking controllers (bookingController, src/unnamed/part_006) -/

/-- `Except.isOk` specialised to controller outcomes. -/
def isOkE {α : Type} : Except HttpErr α → Bool
  | Except.ok _ => true
  | Except.error _ => false

/-- The booking state visible in the store after a handler ran: an error
response is returned before any save, so the stored booking is the
original one. -/
def persistedBooking (b : Booking) : Except HttpErr Booking → Booking
  | Except.ok b2 => b2
  | Except.error _ => b

/-- What `createBooking` persists on success (the parts of the new
booking document the claims are about, plus the saved room). -/
structure CreatedBookingData where
  numberOfNights : ℚ
  roomRate : ℚ
  room : RoomDoc
deriving DecidableEq, Repr

/-- `createBooking` (src/unnamed/part_006 lines 80-192), restricted to
the validation chain, the nights computation and the room write; the
pricing construction it then runs is `calculateTotal` (modelled above).
Dates are epoch milliseconds. -/
def createBooking (todayMs checkInMs checkOutMs : ℚ) (room : RoomDoc) :
    Except HttpErr CreatedBookingData :=
  if checkInMs < todayMs then
    Except.error ⟨400, "Check-in date cannot be in the past"⟩
  else if checkOutMs ≤ checkInMs then
    Except.error ⟨400, "Check-out date must be after check-in date"⟩
  else if (room.availableRead).ltNum 1 then
    Except.error ⟨400, "Room is not available"⟩
  else
    Except.ok
      { numberOfNights := ((⌈(checkOutMs - checkInMs) / 86400000⌉ : ℤ) : ℚ)
        roomRate := room.price
        -- room.available -= 1; await room.save()
        room := room.saveAfterAvailableWrite ((room.availableRead).addNum (-1)) }

/-- `cancelBooking` (src/unnamed/part_006 lines 312-349): guard on the
current status, set `status = 'cancelled'`, save the booking, then
`room.available += 1; await room.save()`.  It never touches
`booking.payment`. -/
def cancelBooking (b : Booking) (room : RoomDoc) :
    Except HttpErr (Booking × RoomDoc) :=
  if (["confirmed", "checked-in"].contains b.status) = false then
    Except.error ⟨400, "Booking cannot be cancelled in current status"⟩
  else
    Except.ok (bookingSave { b with status := "cancelled" },
      room.saveAfterAvailableWrite ((room.availableRead).addNum 1))

/-- `checkInBooking` (src/unnamed/part_006 lines 645-669). -/
def checkInBooking (b : Booking) (nowMs : ℚ) : Except HttpErr Booking :=
  if b.status ≠ "confirmed" then
    Except.error ⟨400, "Booking must be confirmed to check in"⟩
  else
    Except.ok (bookingSave { b with status := "checked-in", actualCheckIn := some nowMs })

/-- `checkOutBooking` (src/unnamed/part_006 lines 672-703): guard, set
status and `actualCheckOut`, save, then the room release write. -/
def checkOutBooking (b : Booking) (nowMs : ℚ) (room : RoomDoc) :
    Except HttpErr (Booking × RoomDoc) :=
  if b.status ≠ "checked-in" then
    Except.error ⟨400, "Guest must be checked in to check out"⟩
  else
    Except.ok (bookingSave { b with status := "checked-out", actualCheckOut := some nowMs },
      room.saveAfterAvailableWrite ((room.availableRead).addNum 1))

/-- A concrete room document for witnesses (room 101, price 2400). -/
def roomA : RoomDoc :=
  { roomNumber := "101", price := 2400, isAvailable := true, maintenanceStatus := "good" }

/-- The scenario booking with an arbitrary lifecycle status, for
exercising the transition guards. -/
def bookingWithStatus (s : String) : Booking :=
  { checkInDateMs := 0, checkOutDateMs := 172800000, numberOfNights := 2,
    additionalServices := [], foodOrders := [],
    pricing := { roomRate := 2400, packagePrice := 0, servicesTotal := 0,
                 foodTotal := 0, taxAmount := 0, discountAmount := 0,
                 totalAmount := 0 },
    payment := { status := "pending", paidAmount := 0, refundAmount := 0 },
    status := s, actualCheckIn := none, actualCheckOut := none }

/-- The §8 scenario booking: room rate 2400, two nights, no package, no
services, no food orders, no discount. -/
def scenarioBooking : Booking :=
  { checkInDateMs := 0, checkOutDateMs := 172800000, numberOfNights := 2,
    additionalServices := [], foodOrders := [],
    pricing := { roomRate := 2400, packagePrice := 0, servicesTotal := 0,
                 foodTotal := 0, taxAmount := 0, discountAmount := 0,
                 totalAmount := 0 },
    payment := { status := "pending", paidAmount := 0, refundAmount := 0 },
    status := "confirmed", actualCheckIn := none, actualCheckOut := none }

/-! ## Order model (orderSchema, src/unnamed/part_012) -/

/-- One order line item. -/
structure OrderItem where
  menuItemId : String
  name : String
  price : ℚ
  quantity : ℚ
  category : String
  subtotal : ℚ
deriving DecidableEq, Repr

/-- A restaurant order document (the fields the modelled operations
touch). -/
structure Order where
  orderId : String
  items : List OrderItem
  totalAmount : ℚ
  tax : ℚ
  deliveryFee : ℚ
  finalAmount : ℚ
  status : String
  paymentStatus : String
  stripePaymentId : Option String
  transactionId : Option String
  deliveryType : String
  actualDeliveryTime : Option ℚ
  staffNotes : Option String
  assignedStaff : Option String
deriving DecidableEq, Repr

/-- `orderSchema.pre('save')` (src/unnamed/part_012 lines 135-148):
recomputes each item's `subtotal = price * quantity`, `totalAmount` as
the sum of the subtotals, and `finalAmount = totalAmount + tax +
deliveryFee`.  It does not touch `tax` or `deliveryFee`.  Modelling
`order.save()`. -/
def orderPreSave (o : Order) : Order :=
  let items := o.items.map (fun it => { it with subtotal := it.price * it.quantity })
  let totalAmount := (items.map (fun it => it.subtotal)).sum
  { o with items := items, totalAmount := totalAmount,
           finalAmount := totalAmount + o.tax + o.deliveryFee }

/-- `orderSchema.methods.updateStatus` (lines 156-164): set the status,
stamp `actualDeliveryTime` when the new status is `delivered`, and save. -/
def Order.updateStatus (o : Order) (newStatus : String) (nowMs : ℚ) : Order :=
  orderPreSave { o with
    status := newStatus
    actualDeliveryTime := if newStatus = "delivered" then some nowMs else o.actualDeliveryTime }

/-- `orderSchema.methods.completePayment` (lines 167-174): set
`paymentStatus = 'completed'`, record the gateway ids, force
`status = 'confirmed'`, and save. -/
def Order.completePayment (o : Order) (stripePaymentId transactionId : String) : Order :=
  orderPreSave { o with
    paymentStatus := "completed"
    stripePaymentId := some stripePaymentId
    transactionId := some transactionId
    status := "confirmed" }

/-- The order state persisted by `POST /orders/confirm-payment`
(src/routes/orderRoutes.js lines 131-177) as a function of the gateway
verdict: on success `completePayment`, on failure
`paymentStatus = 'failed'` followed by `save()` (the handler then
returns 400 without further mutation). -/
def confirmPaymentOutcome (o : Order) (paymentSucceeded : Bool)
    (paymentIntentId transactionId : String) : Order :=
  if paymentSucceeded then o.completePayment paymentIntentId transactionId
  else orderPreSave { o with paymentStatus := "failed" }

/-- JS `Math.round`: round half toward positive infinity. -/
def jsRound (q : ℚ) : ℤ := ⌊q + 1 / 2⌋

/-- A menu-item document from the catalog (the fields the order route
reads). -/
structure MenuItemDoc where
  name : String
  price : ℚ
  category : String
deriving DecidableEq, Repr

/-- One item of the request body of `POST /orders/create-payment-intent`:
a menu-item id, the client's display name, and a quantity. -/
structure ReqItem where
  id : String
  name : String
  quantity : ℚ
deriving DecidableEq, Repr

/-- `MenuItem.findById`, over a catalog listed as (id, document) pairs. -/
def findMenuItem (catalog : List (String × MenuItemDoc)) (id : String) :
    Option MenuItemDoc :=
  (catalog.find? (fun p => p.fst == id)).map (fun p => p.snd)

/-- The item-validation loop of `create-payment-intent` (lines 43-60):
look every submitted item up in the catalog — the first missing one
aborts with 400 — and rebuild the line items from catalog prices. -/
def buildOrderItems (catalog : List (String × MenuItemDoc)) :
    List ReqItem → Except HttpErr (List OrderItem)
  | [] => Except.ok []
  | it :: rest =>
    match findMenuItem catalog it.id with
    | none => Except.error ⟨400, "Menu item " ++ it.name ++ " not found"⟩
    | some m =>
      match buildOrderItems catalog rest with
      | Except.error e => Except.error e
      | Except.ok tail =>
        Except.ok ({ menuItemId := it.id, name := m.name, price := m.price,
                     quantity := it.quantity, category := m.category,
                     subtotal := m.price * it.quantity } :: tail)

/-- `POST /orders/create-payment-intent` (src/routes/orderRoutes.js
lines 19-128): validation chain, server-side recomputation of the total,
the 0.01 tolerance check against the client total, tax and delivery-fee
computation, and the final `order.save()`.  Note that `tax` and the
route-level `finalAmount` are computed from the client-supplied
`totalAmount`, while the persisted `totalAmount` is the recomputed
`calculatedTotal` (and the pre-save hook then recomputes `finalAmount`
from it). -/
def createPaymentIntentRoute (catalog : List (String × MenuItemDoc))
    (items : List ReqItem) (clientTotalAmount : ℚ) (deliveryType : String)
    (orderId : String) : Except HttpErr Order :=
  if items.isEmpty then Except.error ⟨400, "Invalid items data"⟩
  else if clientTotalAmount ≤ 0 then Except.error ⟨400, "Invalid total amount"⟩
  else
    match buildOrderItems catalog items with
    | Except.error e => Except.error e
    | Except.ok orderItems =>
      let calculatedTotal := (orderItems.map (fun it => it.subtotal)).sum
      if 1 / 100 < |calculatedTotal - clientTotalAmount| then
        Except.error ⟨400, "Total amount mismatch"⟩
      else
        let tax : ℚ := ((jsRound (clientTotalAmount * (1 / 10)) : ℤ) : ℚ)
        let deliveryFee : ℚ := if deliveryType = "room_service" then 50 else 0
        let finalAmount := clientTotalAmount + tax + deliveryFee
        Except.ok (orderPreSave
          { orderId := orderId, items := orderItems, totalAmount := calculatedTotal,
            tax := tax, deliveryFee := deliveryFee, finalAmount := finalAmount,
            status := "pending", paymentStatus := "pending",
            stripePaymentId := none, transactionId := none,
            deliveryType := deliveryType, actualDeliveryTime := none,
            staffNotes := none, assignedStaff := none })

/-- The closed set of order statuses `PUT /:orderId/status` accepts. -/
def validStatuses : List String :=
  ["pending", "confirmed", "preparing", "ready", "out_for_delivery", "delivered", "cancelled"]

/-- `PUT /orders/:orderId/status` (src/routes/orderRoutes.js lines
298-341), after the role check: validate the status string against the
closed set, then `order.updateStatus(status)`, optionally set
`staffNotes`, set `assignedStaff` and save again.  No condition on the
order's current status is checked. -/
def updateOrderStatusRoute (o : Order) (status : String)
    (staffNotes : Option String) (staffId : String) (nowMs : ℚ) :
    Except HttpErr Order :=
  if (validStatuses.contains status) = false then
    Except.error ⟨400, "Invalid status"⟩
  else
    let o1 := o.updateStatus status nowMs
    let o2 := { o1 with
      staffNotes := match staffNotes with | some n => some n | none => o1.staffNotes
      assignedStaff := some staffId }
    Except.ok (orderPreSave o2)

/-- The invariant `orderSchema.pre('save')` establishes; every persisted
order satisfies it. -/
def orderSaved (o : Order) : Prop :=
  (∀ it ∈ o.items, it.subtotal = it.price * it.quantity)
  ∧ o.totalAmount = (o.items.map (fun it => it.subtotal)).sum
  ∧ o.finalAmount = o.totalAmount + o.tax + o.deliveryFee

instance (o : Order) : Decidable (orderSaved o) := by
  unfold orderSaved; infer_instance

/-! ## Package model (src/models/Package.js) -/

/-- One seasonal price window (`validFor.seasons`). -/
structure Season where
  name : String
  startDateMs : ℤ
  endDateMs : ℤ
  priceModifier : ℚ
deriving DecidableEq, Repr

/-- The `availability` sub-record of a package. -/
structure PackageAvailability where
  startDateMs : Option ℤ
  endDateMs : Option ℤ
  blackoutDatesMs : List ℤ
deriving DecidableEq, Repr

/-- A package document (the fields the modelled methods read). -/
structure Package where
  price : ℚ
  discountPercentage : ℚ
  isActive : Bool
  availability : PackageAvailability
  seasons : List Season
deriving DecidableEq, Repr

/-- `date.toDateString()` equality on two timestamps: they fall on the
same calendar day (modelled with days of 86400000 ms). -/
def sameCalendarDay (a b : ℤ) : Bool := a.fdiv 86400000 == b.fdiv 86400000

/-- `PackageSchema.methods.isAvailable` (src/models/Package.js lines
115-129): active, after `startDate` (when set), before `endDate` (when
set), and not on a blackout day. -/
def Package.isAvailable (p : Package) (checkDateMs : ℤ) : Bool :=
  if p.isActive = false then false
  else if (match p.availability.startDateMs with
           | some s => decide (checkDateMs < s)
           | none => false) then false
  else if (match p.availability.endDateMs with
           | some e => decide (e < checkDateMs)
           | none => false) then false
  else if p.availability.blackoutDatesMs.any (fun d => sameCalendarDay d checkDateMs) then
    false
  else true

/-- The `effectivePrice` virtual: `price * (1 - discountPercentage / 100)`. -/
def Package.effectivePrice (p : Package) : ℚ :=
  p.price * (1 - p.discountPercentage / 100)

/-- The season-match predicate of `getSeasonalPrice`:
`checkDate >= season.startDate && checkDate <= season.endDate`. -/
def seasonContains (s : Season) (checkDateMs : ℤ) : Bool :=
  decide (s.startDateMs ≤ checkDateMs) && decide (checkDateMs ≤ s.endDateMs)

/-- `PackageSchema.methods.getSeasonalPrice` (lines 132-139): multiply
`effectivePrice` by the first matching season's modifier, or return it
unmodified when no season matches. -/
def Package.getSeasonalPrice (p : Package) (checkDateMs : ℤ) : ℚ :=
  match p.seasons.find? (fun s => seasonContains s checkDateMs) with
  | some season => p.effectivePrice * season.priceModifier
  | none => p.effectivePrice

/-! ## Concrete documents used by the witnesses -/

/-- The §8 scenario order, as persisted: one item at price 100,
quantity 2, `room_service` delivery — totalAmount 200, tax 20,
deliveryFee 50, finalAmount 270. -/
def sampleOrder : Order :=
  { orderId := "ORD-1",
    items := [{ menuItemId := "m1", name := "Masala Tea", price := 100,
                quantity := 2, category := "beverages", subtotal := 200 }],
    totalAmount := 200, tax := 20, deliveryFee := 50, finalAmount := 270,
    status := "pending", paymentStatus := "pending", stripePaymentId := none,
    transactionId := none, deliveryType := "room_service",
    actualDeliveryTime := none, staffNotes := none, assignedStaff := none }

/-- A one-item menu catalog whose price (20.999) sits near a tax
rounding boundary. -/
def catalogA : List (String × MenuItemDoc) :=
  [("m1", { name := "Masala Dosa", price := 20999 / 1000, category := "south-indian" })]

/-- The order the C6 counterexample route call persists: client total
105.00 against recomputed total 104.995 — a difference of 0.005, well
inside the 0.01 tolerance (also under IEEE doubles, where
20.999 * 5 ≈ 104.99499999999999 gives a difference of about 0.0050000000000001)
— with tax 11 = round(105.00 × 0.10), which both exact and double
arithmetic produce. -/
def persistedMismatchOrder : Order :=
  { orderId := "ORD-2",
    items := [{ menuItemId := "m1", name := "Masala Dosa", price := 20999 / 1000,
                quantity := 5, category := "south-indian", subtotal := 104995 / 1000 }],
    totalAmount := 104995 / 1000, tax := 11, deliveryFee := 50,
    finalAmount := 104995 / 1000 + 11 + 50,
    status := "pending", paymentStatus := "pending", stripePaymentId := none,
    transactionId := none, deliveryType := "room_service",
    actualDeliveryTime := none, staffNotes := none, assignedStaff := none }

/-- An active package: price 1000, 10% discount (effective price 900),
window days 0-100, blackout on day 10, one season on days 20-30 with
multiplier 1.5. -/
def pkgA : Package :=
  { price := 1000, discountPercentage := 10, isActive := true,
    availability := { startDateMs := some 0, endDateMs := some 8640000000,
                      blackoutDatesMs := [864000000] },
    seasons := [{ name := "peak", startDateMs := 1728000000,
                  endDateMs := 2592000000, priceModifier := 3 / 2 }] }

end Mania

namespace Mania

/-- C1: `calculateTotal` sets `pricing.totalAmount` to
`(roomRate*nights + packagePrice + Σ price*quantity + Σ foodOrder.totalAmount)`
marked up by 18% tax minus `discountAmount`, and on the concrete scenario
(room rate 2400, 2 nights, nothing else) yields roomTotal 4800,
taxAmount 864 and totalAmount 5664. -/
theorem calculateTotal_spec :
    (∀ b : Booking,
      (calculateTotal b).pricing.totalAmount =
        (b.pricing.roomRate * b.numberOfNights + b.pricing.packagePrice
          + (b.additionalServices.map (fun s => s.price * s.quantity)).sum
          + (b.foodOrders.map (fun o => o.totalAmount)).sum) * (1 + 18 / 100)
        - b.pricing.discountAmount)
    ∧ (∀ b : Booking,
      (calculateTotal b).pricing.taxAmount =
        (b.pricing.roomRate * b.numberOfNights + b.pricing.packagePrice
          + (b.additionalServices.map (fun s => s.price * s.quantity)).sum
          + (b.foodOrders.map (fun o => o.totalAmount)).sum) * (18 / 100))
    ∧ (scenarioBooking.pricing.roomRate * scenarioBooking.numberOfNights = 4800
        ∧ (calculateTotal scenarioBooking).pricing.taxAmount = 864
        ∧ (calculateTotal scenarioBooking).pricing.totalAmount = 5664) := by
  refine ⟨?_, ?_, ?_, ?_, ?_⟩
  · intro b
    simp only [calculateTotal]
    ring
  · intro b
    simp only [calculateTotal]
  · norm_num [scenarioBooking]
  · norm_num [calculateTotal, scenarioBooking]
  · norm_num [calculateTotal, scenarioBooking]

/-- C2 (evidence of the code defect): `RoomSchema` declares no
`available` path, so the controller's guard compares `undefined` with 1,
which is false for every room — `createBooking` can never answer 400
`Room is not available`, its outcome depends only on the date checks,
and the decrement `room.available -= 1` leaves the stored room
unchanged. -/
theorem createBooking_availabilityGuardDead
    (todayMs checkInMs checkOutMs : ℚ) (room : RoomDoc) :
    (createBooking todayMs checkInMs checkOutMs room
        ≠ Except.error ⟨400, "Room is not available"⟩)
    ∧ (isOkE (createBooking todayMs checkInMs checkOutMs room) = true
        ↔ (todayMs ≤ checkInMs ∧ checkInMs < checkOutMs))
    ∧ (∀ d, createBooking todayMs checkInMs checkOutMs room = Except.ok d →
        d.room = room) := by
  have hguard : (room.availableRead).ltNum 1 = false := rfl
  refine ⟨?_, ?_, ?_⟩
  · by_cases h1 : checkInMs < todayMs <;> by_cases h2 : checkOutMs ≤ checkInMs <;>
      simp [createBooking, hguard, h1, h2, isOkE]
  · by_cases h1 : checkInMs < todayMs <;> by_cases h2 : checkOutMs ≤ checkInMs <;>
      simp [createBooking, hguard, h1, h2, isOkE]
    exact ⟨not_lt.mp h1, not_le.mp h2⟩
  · intro d hd
    by_cases h1 : checkInMs < todayMs <;> by_cases h2 : checkOutMs ≤ checkInMs <;>
      simp [createBooking, hguard, h1, h2, RoomDoc.saveAfterAvailableWrite] at hd ⊢
    exact hd.symm ▸ rfl

/-- Witness for C2's theorem: with room 101 (which, like every room, has
no stored `available` units) and a valid date range, booking creation
succeeds and the saved room is unchanged. -/
theorem createBooking_availabilityGuardDead_witness :
    isOkE (createBooking 0 0 172800000 roomA) = true
    ∧ createBooking 0 0 172800000 roomA ≠ Except.error ⟨400, "Room is not available"⟩ :=
  ⟨(createBooking_availabilityGuardDead 0 0 172800000 roomA).2.1.mpr
      ⟨le_refl 0, by norm_num⟩,
   (createBooking_availabilityGuardDead 0 0 172800000 roomA).1⟩

/-- C3 counterexample: cancelling a confirmed booking whose payment
status is `pending` leaves the payment sub-record untouched — it is not
marked `refunded`. -/
theorem cancelBooking_counterexample :
    ∃ b2 r2, cancelBooking (bookingWithStatus "confirmed") roomA = Except.ok (b2, r2)
      ∧ b2.payment.status = "pending" ∧ ¬ b2.payment.status = "refunded" := by
  refine ⟨bookingSave { bookingWithStatus "confirmed" with status := "cancelled" },
          roomA.saveAfterAvailableWrite ((roomA.availableRead).addNum 1), ?_, ?_, ?_⟩
  · simp [cancelBooking, bookingWithStatus]
  · simp [bookingSave, bookingWithStatus]
  · simp [bookingSave, bookingWithStatus]

/-- C3 amended: from `confirmed` or `checked-in`, `cancelBooking`
succeeds and sets `status = 'cancelled'`, but it leaves the payment
sub-record unchanged, and the attempted room release writes the
non-schema path `available`, so the stored room is also unchanged. -/
theorem cancelBooking_amended (b : Booking) (room : RoomDoc)
    (h : b.status = "confirmed" ∨ b.status = "checked-in") :
    ∃ b2, cancelBooking b room = Except.ok (b2, room)
      ∧ b2.status = "cancelled" ∧ b2.payment = b.payment := by
  refine ⟨bookingSave { b with status := "cancelled" }, ?_, ?_, ?_⟩
  · rcases h with h | h <;> simp [cancelBooking, h, RoomDoc.saveAfterAvailableWrite]
  · simp [bookingSave]
  · simp [bookingSave]

/-- Witness for C3's amended theorem at a concrete checked-in booking. -/
theorem cancelBooking_amended_witness :
    ∃ b2, cancelBooking (bookingWithStatus "checked-in") roomA = Except.ok (b2, roomA)
      ∧ b2.status = "cancelled"
      ∧ b2.payment = (bookingWithStatus "checked-in").payment :=
  cancelBooking_amended (bookingWithStatus "checked-in") roomA (Or.inr (by decide))

/-- C4: `checkIn` succeeds exactly from `confirmed` and fails with HTTP
400 from any other status (including `cancelled`) leaving the stored
booking unchanged; `checkOut` succeeds exactly from `checked-in` and
fails from `confirmed` (skipping check-in); `cancel` fails from
`checked-out`. -/
theorem bookingTransitionGuards (b : Booking) (nowMs : ℚ) (room : RoomDoc) :
    (isOkE (checkInBooking b nowMs) = true ↔ b.status = "confirmed")
    ∧ (b.status ≠ "confirmed" →
        checkInBooking b nowMs
            = Except.error ⟨400, "Booking must be confirmed to check in"⟩
        ∧ persistedBooking b (checkInBooking b nowMs) = b)
    ∧ (isOkE (checkOutBooking b nowMs room) = true ↔ b.status = "checked-in")
    ∧ (b.status = "confirmed" →
        checkOutBooking b nowMs room
          = Except.error ⟨400, "Guest must be checked in to check out"⟩)
    ∧ (b.status = "checked-out" →
        cancelBooking b room
          = Except.error ⟨400, "Booking cannot be cancelled in current status"⟩) := by
  refine ⟨?_, ?_, ?_, ?_, ?_⟩
  · by_cases h : b.status = "confirmed" <;> simp [checkInBooking, h, isOkE]
  · intro h
    constructor <;> simp [checkInBooking, h, persistedBooking]
  · by_cases h : b.status = "checked-in" <;> simp [checkOutBooking, h, isOkE]
  · intro h
    simp [checkOutBooking, h]
  · intro h
    simp [cancelBooking, h]

/-- Witness for C4 at concrete bookings: check-in from `cancelled`,
check-out from `confirmed` and cancel from `checked-out` all answer the
400 guard errors. -/
theorem bookingTransitionGuards_witness :
    checkInBooking (bookingWithStatus "cancelled") 5
      = Except.error ⟨400, "Booking must be confirmed to check in"⟩
    ∧ checkOutBooking (bookingWithStatus "confirmed") 5 roomA
      = Except.error ⟨400, "Guest must be checked in to check out"⟩
    ∧ cancelBooking (bookingWithStatus "checked-out") roomA
      = Except.error ⟨400, "Booking cannot be cancelled in current status"⟩ :=
  ⟨((bookingTransitionGuards (bookingWithStatus "cancelled") 5 roomA).2.1 (by decide)).1,
   (bookingTransitionGuards (bookingWithStatus "confirmed") 5 roomA).2.2.2.1 (by decide),
   (bookingTransitionGuards (bookingWithStatus "checked-out") 5 roomA).2.2.2.2 (by decide)⟩

/-- C8: a creation request whose check-out is not strictly after its
check-in is rejected with HTTP 400 and nothing is persisted; every
created booking has `numberOfNights = ceil((checkOut - checkIn) /
86400000)`, which is at least 1. -/
theorem createBooking_nights (todayMs checkInMs checkOutMs : ℚ) (room : RoomDoc) :
    (checkOutMs ≤ checkInMs →
      ∃ m, createBooking todayMs checkInMs checkOutMs room = Except.error ⟨400, m⟩)
    ∧ (∀ d, createBooking todayMs checkInMs checkOutMs room = Except.ok d →
        d.numberOfNights = ((⌈(checkOutMs - checkInMs) / 86400000⌉ : ℤ) : ℚ)
        ∧ 1 ≤ d.numberOfNights) := by
  constructor
  · intro h2
    by_cases h1 : checkInMs < todayMs
    · exact ⟨"Check-in date cannot be in the past", by simp [createBooking, h1]⟩
    · exact ⟨"Check-out date must be after check-in date", by simp [createBooking, h1, h2]⟩
  · intro d hd
    by_cases h1 : checkInMs < todayMs
    · simp [createBooking, h1] at hd
    · by_cases h2 : checkOutMs ≤ checkInMs
      · simp [createBooking, h1, h2] at hd
      · have hguard : (room.availableRead).ltNum 1 = false := rfl
        simp [createBooking, h1, h2, hguard] at hd
        have hpos : (0 : ℚ) < (checkOutMs - checkInMs) / 86400000 := by
          have hlt : checkInMs < checkOutMs := not_le.mp h2
          exact div_pos (by linarith) (by norm_num)
        have hceil : (1 : ℤ) ≤ ⌈(checkOutMs - checkInMs) / 86400000⌉ := by
          have := Int.ceil_pos.mpr hpos
          omega
        constructor
        · rw [← hd]
        · rw [← hd]
          show (1 : ℚ) ≤ ((⌈(checkOutMs - checkInMs) / 86400000⌉ : ℤ) : ℚ)
          exact_mod_cast hceil

/-- Witness for C8: swapped dates are rejected, and a two-day stay
yields two nights. -/
theorem createBooking_nights_witness :
    (∃ m, createBooking 0 172800000 86400000 roomA = Except.error ⟨400, m⟩)
    ∧ ((2 : ℚ) = ((⌈((172800000 : ℚ) - 0) / 86400000⌉ : ℤ) : ℚ)
        ∧ 1 ≤ (2 : ℚ)) := by
  constructor
  · exact (createBooking_nights 0 172800000 86400000 roomA).1 (by norm_num)
  · have hok : createBooking 0 0 172800000 roomA
        = Except.ok { numberOfNights := 2, roomRate := 2400, room := roomA } := by
      norm_num [createBooking, roomA, RoomDoc.availableRead, JsVal.ltNum,
        RoomDoc.saveAfterAvailableWrite, JsVal.addNum]
    have := (createBooking_nights 0 0 172800000 roomA).2
      { numberOfNights := 2, roomRate := 2400, room := roomA } hok
    simpa using this

/-- Saving an order that already satisfies the pre-save invariant
changes nothing (idempotence of the recomputation). -/
theorem orderPreSave_of_saved (o : Order) (h : orderSaved o) : orderPreSave o = o := by
  obtain ⟨hitems, htotal, hfinal⟩ := h
  have hmap : o.items.map (fun it => { it with subtotal := it.price * it.quantity })
      = o.items := by
    have hid : ∀ it ∈ o.items,
        ({ it with subtotal := it.price * it.quantity } : OrderItem) = it := by
      intro it hit
      have hs := hitems it hit
      cases it
      simp_all
    calc o.items.map (fun it => { it with subtotal := it.price * it.quantity })
        = o.items.map id := List.map_congr_left hid
      _ = o.items := List.map_id o.items
  simp only [orderPreSave, hmap]
  rw [← htotal, ← hfinal]

/-- C5: `completePayment` sets `paymentStatus = 'completed'` and forces
`status = 'confirmed'` whatever the prior status; a failed gateway
confirmation on a persisted order sets only `paymentStatus = 'failed'`,
leaving every other field (the lifecycle status included) unchanged;
`updateStatus` stamps `actualDeliveryTime` exactly when the new status
is `delivered`. -/
theorem paymentConfirmation_spec (o : Order) (pid tid : String) (nowMs : ℚ) :
    ((o.completePayment pid tid).paymentStatus = "completed"
      ∧ (o.completePayment pid tid).status = "confirmed")
    ∧ (orderSaved o →
        confirmPaymentOutcome o false pid tid = { o with paymentStatus := "failed" })
    ∧ (∀ s, (o.updateStatus s nowMs).actualDeliveryTime
        = if s = "delivered" then some nowMs else o.actualDeliveryTime) := by
  refine ⟨⟨?_, ?_⟩, ?_, ?_⟩
  · simp [Order.completePayment, orderPreSave]
  · simp [Order.completePayment, orderPreSave]
  · intro h
    have h2 : orderSaved { o with paymentStatus := "failed" } := by
      obtain ⟨hitems, htotal, hfinal⟩ := h
      exact ⟨hitems, htotal, hfinal⟩
    simpa [confirmPaymentOutcome] using orderPreSave_of_saved _ h2
  · intro s
    simp [Order.updateStatus, orderPreSave]

/-- Witness for C5 at the scenario order: success forces
completed/confirmed, failure flips only `paymentStatus`, and delivery
stamps the time. -/
theorem paymentConfirmation_spec_witness :
    ((sampleOrder.completePayment "pi_1" "txn_1").paymentStatus = "completed"
      ∧ (sampleOrder.completePayment "pi_1" "txn_1").status = "confirmed")
    ∧ confirmPaymentOutcome sampleOrder false "pi_1" "txn_1"
        = { sampleOrder with paymentStatus := "failed" }
    ∧ (sampleOrder.updateStatus "delivered" 99).actualDeliveryTime = some 99 := by
  refine ⟨(paymentConfirmation_spec sampleOrder "pi_1" "txn_1" 99).1,
          (paymentConfirmation_spec sampleOrder "pi_1" "txn_1" 99).2.1 ?_, ?_⟩
  · refine ⟨?_, ?_, ?_⟩ <;> norm_num [sampleOrder]
  · have := (paymentConfirmation_spec sampleOrder "pi_1" "txn_1" 99).2.2 "delivered"
    simpa using this

/-- C6 counterexample: through the real order-creation route, a client
total of 105.00 against a recomputed total of 104.995 passes the 0.01
tolerance (the 0.005 difference is accepted by exact and by IEEE-double
arithmetic alike); the persisted order then has `tax = 11` while
`round(totalAmount × 0.10) = 10`, so the claimed post-save tax identity
fails (tax is never recomputed on save). -/
theorem orderTax_counterexample :
    ∃ ord, createPaymentIntentRoute catalogA
        [{ id := "m1", name := "Masala Dosa", quantity := 5 }]
        105 "room_service" "ORD-2" = Except.ok ord
      ∧ ord.totalAmount = 104995 / 1000
      ∧ ord.tax = 11
      ∧ ((jsRound (ord.totalAmount * (1 / 10)) : ℤ) : ℚ) = 10
      ∧ ord.tax ≠ ((jsRound (ord.totalAmount * (1 / 10)) : ℤ) : ℚ) := by
  refine ⟨persistedMismatchOrder, ?_, ?_, ?_, ?_, ?_⟩
  · simp only [createPaymentIntentRoute, buildOrderItems, findMenuItem, catalogA,
      List.find?, List.isEmpty, List.map, List.sum_cons, List.sum_nil]
    norm_num [orderPreSave, jsRound, persistedMismatchOrder]
    intro h
    rw [abs_of_nonneg (by norm_num : (0 : ℚ) ≤ 1 / 200)] at h
    exact absurd h (by norm_num)
  · norm_num [persistedMismatchOrder]
  · norm_num [persistedMismatchOrder]
  · norm_num [persistedMismatchOrder, jsRound]
  · norm_num [persistedMismatchOrder, jsRound]

/-- C6 amended: every save re-establishes the item-subtotal, totalAmount
and finalAmount equations, but `tax` and `deliveryFee` are carried over
as stored, not recomputed — `tax` is fixed at creation from the
client-supplied total. -/
theorem orderPreSave_invariant (o : Order) :
    orderSaved (orderPreSave o)
    ∧ (orderPreSave o).tax = o.tax
    ∧ (orderPreSave o).deliveryFee = o.deliveryFee := by
  refine ⟨⟨?_, ?_, ?_⟩, rfl, rfl⟩
  · intro it hit
    simp only [orderPreSave, List.mem_map] at hit
    obtain ⟨x, _, rfl⟩ := hit
    rfl
  · rfl
  · rfl

/-- C7: when every submitted item exists in the catalog and the client
total is positive, a client total differing from the recomputed catalog
total by more than 0.01 makes the route answer 400
`Total amount mismatch` — no order is created and the server value is
never silently substituted. -/
theorem totalMismatch_rejected (catalog : List (String × MenuItemDoc))
    (items : List ReqItem) (clientTotal : ℚ) (deliveryType orderId : String)
    (orderItems : List OrderItem)
    (hne : items.isEmpty = false)
    (hpos : 0 < clientTotal)
    (hfound : buildOrderItems catalog items = Except.ok orderItems)
    (hmis : 1 / 100 < |(orderItems.map (fun it => it.subtotal)).sum - clientTotal|) :
    createPaymentIntentRoute catalog items clientTotal deliveryType orderId
      = Except.error ⟨400, "Total amount mismatch"⟩ := by
  have hmis2 : ((100 : ℚ))⁻¹ < |(orderItems.map (fun it => it.subtotal)).sum - clientTotal| := by
    simpa using hmis
  simp [createPaymentIntentRoute, hne, not_le.mpr hpos, hfound, hmis2]

/-- Witness for C7: one catalog item totalling 104.995 against a client
total of 200 is rejected with `Total amount mismatch`. -/
theorem totalMismatch_rejected_witness :
    createPaymentIntentRoute catalogA
        [{ id := "m1", name := "Masala Dosa", quantity := 5 }]
        200 "pickup" "ORD-3" = Except.error ⟨400, "Total amount mismatch"⟩ := by
  refine totalMismatch_rejected catalogA _ 200 "pickup" "ORD-3"
    [{ menuItemId := "m1", name := "Masala Dosa", price := 20999 / 1000,
       quantity := 5, category := "south-indian", subtotal := 20999 / 1000 * 5 }]
    rfl (by norm_num) ?_ ?_
  · simp [buildOrderItems, findMenuItem, catalogA]
  · have habs : |(20999 / 1000 * 5 : ℚ) - 200| = 95005 / 1000 := by
      rw [abs_of_nonpos] <;> norm_num
    simp only [List.map, List.sum_cons, List.sum_nil, add_zero]
    rw [habs]
    norm_num

/-- C9: a package is unavailable on any blackout calendar day (also when
inactive, before its start date, or after its end date), and
`getSeasonalPrice` returns `effectivePrice` unchanged when no season
window contains the date and `effectivePrice × modifier` of the first
matching season otherwise. -/
theorem package_spec (p : Package) (d : ℤ) :
    (∀ b ∈ p.availability.blackoutDatesMs, sameCalendarDay b d = true →
        p.isAvailable d = false)
    ∧ (p.isActive = false → p.isAvailable d = false)
    ∧ (∀ s, p.availability.startDateMs = some s → d < s → p.isAvailable d = false)
    ∧ (∀ e, p.availability.endDateMs = some e → e < d → p.isAvailable d = false)
    ∧ ((∀ s ∈ p.seasons, seasonContains s d = false) →
        p.getSeasonalPrice d = p.effectivePrice)
    ∧ (∀ s, p.seasons.find? (fun s => seasonContains s d) = some s →
        p.getSeasonalPrice d = p.effectivePrice * s.priceModifier) := by
  refine ⟨?_, ?_, ?_, ?_, ?_, ?_⟩
  · intro b hb hsame
    have hD : p.availability.blackoutDatesMs.any (fun x => sameCalendarDay x d) = true :=
      List.any_eq_true.mpr ⟨b, hb, by simpa using hsame⟩
    simp only [Package.isAvailable]
    split_ifs <;> simp_all
  · intro h
    simp [Package.isAvailable, h]
  · intro s hs hlt
    simp only [Package.isAvailable, hs]
    split_ifs <;> simp_all
  · intro e he hlt
    simp only [Package.isAvailable, he]
    split_ifs <;> simp_all
  · intro h
    have : p.seasons.find? (fun s => seasonContains s d) = none :=
      List.find?_eq_none.mpr (by simpa using h)
    simp [Package.getSeasonalPrice, this]
  · intro s hf
    simp [Package.getSeasonalPrice, hf]

/-- Witness for C9 at the concrete package: blackout day 10 is
unavailable despite lying inside the window; a day outside the season
costs the effective price 900; a day inside the season costs 1350. -/
theorem package_spec_witness :
    pkgA.isAvailable 864005000 = false
    ∧ pkgA.getSeasonalPrice 432000000 = 900
    ∧ pkgA.getSeasonalPrice 2160000000 = 1350 := by
  refine ⟨(package_spec pkgA 864005000).1 864000000 ?_ ?_, ?_, ?_⟩
  · simp [pkgA]
  · decide
  · have hnone : ∀ s ∈ pkgA.seasons, seasonContains s 432000000 = false := by
      intro s hs
      simp only [pkgA, List.mem_singleton] at hs
      subst hs
      decide
    have := (package_spec pkgA 432000000).2.2.2.2.1 hnone
    rw [this]
    norm_num [Package.effectivePrice, pkgA]
  · have hfind : pkgA.seasons.find? (fun s => seasonContains s 2160000000)
        = some { name := "peak", startDateMs := 1728000000,
                 endDateMs := 2592000000, priceModifier := 3 / 2 } := by
      have hmatch : seasonContains
          { name := "peak", startDateMs := 1728000000,
            endDateMs := 2592000000, priceModifier := 3 / 2 } (2160000000 : ℤ) = true := by
        decide
      simp [pkgA, List.find?, hmatch]
    have := (package_spec pkgA 2160000000).2.2.2.2.2 _ hfind
    rw [this]
    norm_num [Package.effectivePrice, pkgA]

/-- C10: for every order and every target status in the accepted set,
the staff status-update route succeeds and sets the status to the
target, with no condition on the current status — `delivered` and
`cancelled` are not terminal under it. -/
theorem updateOrderStatus_spec (o : Order) (s : String) (notes : Option String)
    (staffId : String) (nowMs : ℚ) (hs : s ∈ validStatuses) :
    ∃ o2, updateOrderStatusRoute o s notes staffId nowMs = Except.ok o2
      ∧ o2.status = s := by
  have hc : validStatuses.contains s = true := List.elem_eq_true_of_mem hs
  refine ⟨orderPreSave
    { o.updateStatus s nowMs with
      staffNotes := match notes with
        | some n => some n
        | none => (o.updateStatus s nowMs).staffNotes
      assignedStaff := some staffId }, ?_, ?_⟩
  · unfold updateOrderStatusRoute
    rw [hc]
    rfl
  · simp [Order.updateStatus, orderPreSave]

/-- Witness for C10: a delivered order is moved back to `pending`. -/
theorem updateOrderStatus_spec_witness :
    ∃ o2, updateOrderStatusRoute { sampleOrder with status := "delivered" }
        "pending" none "staff1" 7 = Except.ok o2 ∧ o2.status = "pending" :=
  updateOrderStatus_spec { sampleOrder with status := "delivered" }
    "pending" none "staff1" 7 (by simp [validStatuses])

end Mania
